import Mathlib

/-!
Verification development for a small interactive shell (`app/main.py`).

The Python source is shallowly embedded below: each Python function that the
properties talk about is translated into an executable Lean definition.
Strings are modelled by `String` / `List Char`; process state (current
working directory, history buffer, completer state) is passed explicitly;
text written to the standard streams is collected in a `Streams` record;
Python exceptions that the shell does not catch are modelled with `Except`
or explicit crash constructors.
-/

/-! ## Character and string utilities (models of the Python primitives used) -/

/-- The whitespace characters of `shlex.whitespace` (`" \t\r\n"`). -/
def isShWs (c : Char) : Bool :=
  c = ' ' || c = '\t' || c = '\r' || c = '\n'

/-- The ASCII whitespace recognised by Python `str.strip()` and by the
regex class `\s` (`" \t\n\r\x0b\x0c"`). -/
def isWsStrip (c : Char) : Bool :=
  isShWs c || c = '\x0b' || c = '\x0c'

/-- Model of Python `str.strip()` (no arguments): drop leading and trailing
whitespace. -/
def pyStrip (s : String) : String :=
  String.mk (((s.data.dropWhile isWsStrip).reverse.dropWhile isWsStrip).reverse)

/-- Split a character list at every occurrence of `sep`, keeping empty
segments, as Python `str.split(sep)` does (`"".split` gives one empty part). -/
def splitChar (sep : Char) : List Char → List (List Char)
  | [] => [[]]
  | c :: cs =>
    if c = sep then [] :: splitChar sep cs
    else
      match splitChar sep cs with
      | [] => [[c]]
      | l :: ls => (c :: l) :: ls

/-- `isPrefixL p s` is true when the character list `p` is a prefix of `s`;
used to model Python `str.startswith`. -/
def isPrefixL : List Char → List Char → Bool
  | [], _ => true
  | _ :: _, [] => false
  | a :: as, b :: bs => a = b && isPrefixL as bs

/-- Model of Python `s.startswith(pre)`. -/
def strStarts (s pre : String) : Bool :=
  isPrefixL pre.data s.data

/-! ## `shlex.split` (POSIX mode), as used throughout `main.py`

`shlex.split` tokenises on whitespace; single quotes are fully literal;
inside double quotes a backslash escapes only `"` and `\`; outside quotes a
backslash escapes the next character.  An unterminated quote raises
`ValueError("No closing quotation")` and a trailing backslash raises
`ValueError("No escaped character")`; `main.py` never catches these. -/

/-- Lexer mode of the `shlex` model: outside quotes, inside `'…'`, or inside
`"…"`. -/
inductive LexMode
  | normal
  | inSingle
  | inDouble
deriving DecidableEq

/-- Worker for the `shlex.split` model.  `cur = none` means no token has been
started; `some t` holds the characters collected so far (so that `''`
produces an empty token). -/
def shlexRun : LexMode → Option (List Char) → List (List Char) → List Char →
    Except String (List (List Char))
  | .normal, cur, acc, [] =>
    .ok (acc ++ (match cur with | none => [] | some t => [t]))
  | .inSingle, _, _, [] => .error "No closing quotation"
  | .inDouble, _, _, [] => .error "No closing quotation"
  | .normal, cur, acc, c :: cs =>
    if isShWs c then
      match cur with
      | none => shlexRun .normal none acc cs
      | some t => shlexRun .normal none (acc ++ [t]) cs
    else if c = '\'' then shlexRun .inSingle (some (cur.getD [])) acc cs
    else if c = '"' then shlexRun .inDouble (some (cur.getD [])) acc cs
    else if c = '\\' then
      match cs with
      | [] => .error "No escaped character"
      | d :: ds => shlexRun .normal (some (cur.getD [] ++ [d])) acc ds
    else shlexRun .normal (some (cur.getD [] ++ [c])) acc cs
  | .inSingle, cur, acc, c :: cs =>
    if c = '\'' then shlexRun .normal cur acc cs
    else shlexRun .inSingle (some (cur.getD [] ++ [c])) acc cs
  | .inDouble, cur, acc, c :: cs =>
    if c = '"' then shlexRun .normal cur acc cs
    else if c = '\\' then
      match cs with
      | [] => .error "No escaped character"
      | d :: ds =>
        if d = '"' || d = '\\' then
          shlexRun .inDouble (some (cur.getD [] ++ [d])) acc ds
        else
          shlexRun .inDouble (some (cur.getD [] ++ ['\\', d])) acc ds
    else shlexRun .inDouble (some (cur.getD [] ++ [c])) acc cs

/-- Model of `shlex.split(s)` in POSIX mode. -/
def shlexSplit (s : String) : Except String (List String) :=
  (shlexRun .normal none [] s.data).map (fun ts => ts.map String.mk)

example : shlexSplit "echo hello   world" = .ok ["echo", "hello", "world"] := rfl
example : shlexSplit "echo 'a  b'\"  c\"" = .ok ["echo", "a  b  c"] := rfl
example : shlexSplit "echo \"" = .error "No closing quotation" := rfl
example : shlexSplit "a\\" = .error "No escaped character" := rfl
example : shlexSplit "''" = .ok [""] := rfl

/-! ## The redirection regex of the REPL loop

`main.py` line 581 runs `re.search(r"\s*(\d*)(>>|>)\s*(.*)", line)` on the
raw input line, with no quoting awareness.  For this pattern, backtracking
is equivalent to the following deterministic scan: an attempt at position
`i` succeeds exactly when skipping the maximal whitespace run and then the
maximal digit run from `i` lands on a `>`.  `re.search` returns the
leftmost successful attempt.  Input lines come from `input()` and so
contain no newline. -/

/-- The pieces of a successful redirect-regex match: the match start index,
group 1 (the optional fd digits), group 2 (`>` or `>>`, the `>>`
alternative tried first) and group 3 (the text after the operator and any
following whitespace). -/
structure RedirMatch where
  start : Nat
  fd : String
  op : String
  target : String
deriving DecidableEq

/-- One attempt of the redirect regex at the head of `cs`:
`\s*` then `\d*` then `>>` or `>`, then `\s*(.*)`. -/
def tryRedirAt (cs : List Char) : Option (String × String × String) :=
  let rest1 := cs.dropWhile isWsStrip
  let ds := rest1.takeWhile Char.isDigit
  let rest2 := rest1.dropWhile Char.isDigit
  match rest2 with
  | '>' :: '>' :: r => some (String.mk ds, ">>", String.mk (r.dropWhile isWsStrip))
  | '>' :: r => some (String.mk ds, ">", String.mk (r.dropWhile isWsStrip))
  | _ => none

/-- Scan for the leftmost match of the redirect regex. -/
def redirSearchGo : List Char → Nat → Option RedirMatch
  | [], _ => none
  | c :: cs, i =>
    match tryRedirAt (c :: cs) with
    | some (ds, op, tgt) => some ⟨i, ds, op, tgt⟩
    | none => redirSearchGo cs (i + 1)

/-- Model of `re.search(r"\s*(\d*)(>>|>)\s*(.*)", line)` in `main.py`. -/
def redirectSearch (line : String) : Option RedirMatch :=
  redirSearchGo line.data 0

example : redirectSearch "echo foo" = none := rfl
example : redirectSearch "echo a > f" = some ⟨6, "", ">", "f"⟩ := rfl
example : redirectSearch "echo a 2>> f" = some ⟨6, "2", ">>", "f"⟩ := rfl

/-! ## The REPL loop body (`main`, lines 568-606): parsing one input line -/

/-- What the body of the `while True:` loop in `main` does with one input
line, before command dispatch.  `crashed` models a `ValueError` raised by
`shlex.split` that no handler catches, killing the shell. -/
inductive LineResult
  | pipelineRun
  | crashed (msg : String)
  | emptyCmd
  | exec (args : List String) (redir : Option (String × String × Bool))
deriving DecidableEq

/-- Model of the parsing part of the REPL loop body: pipeline test (`"|" in
line`), then the redirect regex split, then `shlex.split`.  The redirection
component of `exec` is `(output_file, fd, append)`. -/
def processLine (line : String) : LineResult :=
  if line.data.contains '|' then .pipelineRun
  else
    match redirectSearch line with
    | some m =>
      match shlexSplit (pyStrip (String.mk (line.data.take m.start))) with
      | .error e => .crashed e
      | .ok args =>
        if args.isEmpty then .emptyCmd
        else .exec args (some (pyStrip m.target, (if m.fd = "" then "1" else m.fd), m.op = ">>"))
    | none =>
      match shlexSplit line with
      | .error e => .crashed e
      | .ok args => if args.isEmpty then .emptyCmd else .exec args none

example : processLine "echo hello" = .exec ["echo", "hello"] none := rfl
example : processLine "echo a > f" = .exec ["echo", "a"] (some ("f", "1", false)) := rfl
example : processLine "echo a 2>> f" = .exec ["echo", "a"] (some ("f", "2", true)) := rfl

/-! ## Standard streams and the builtin registry -/

/-- Accumulated bytes written to `sys.stdout` and `sys.stderr`. -/
structure Streams where
  out : String
  err : String
deriving DecidableEq

/-- Model of Python `print(s)`: append `s` and a newline to stdout. -/
def pyPrint (st : Streams) (s : String) : Streams :=
  { st with out := st.out ++ s ++ "\n" }

/-- The keys of the `commands` dict of `main.py` (the builtin registry). -/
def commandNames : List String :=
  ["exit", "echo", "type", "pwd", "cd", "history"]

/-! ## Command dispatch (`main`, lines 599-606) -/

/-- Which branch of the single-stage dispatcher is taken. -/
inductive Dispatch
  | runExecutable
  | notFound
  | builtinCall
deriving DecidableEq

/-- Model of the dispatch at the bottom of the REPL loop:
`shutil.which` first, then the not-found message, then the builtin.
`which` abstracts `shutil.which` (PATH resolution). -/
def dispatch (which : String → Option String) (cmd : String) : Dispatch :=
  if (which cmd).isSome then .runExecutable
  else if cmd ∉ commandNames then .notFound
  else .builtinCall

/-- The effect of the `command not found` branch (line 604): a plain
`print`, which writes to stdout. -/
def commandNotFoundEffect (cmd : String) (st : Streams) : Streams :=
  pyPrint st (cmd ++ ": command not found")

/-- Whether taking a dispatch branch can end the REPL loop by itself:
`run_executable` catches every `Exception` and the not-found branch is a
single `print`; only a builtin call can terminate the process
(`exit` calls `os._exit`, and builtins can raise uncaught exceptions). -/
def canTerminateLoop : Dispatch → Bool
  | .runExecutable => false
  | .notFound => false
  | .builtinCall => true

/-! ## PATH resolution (`shutil.which`) and the `type` builtin -/

/-- Model of `shutil.which` for a bare command name: PATH directories are
given in order, each with the list of executable file names it contains;
the result is `dir/cmd` for the first directory containing `cmd`. -/
def shutil_which (dirs : List (String × List String)) (cmd : String) : Option String :=
  match dirs with
  | [] => none
  | (d, files) :: rest =>
    if cmd ∈ files then some (d ++ "/" ++ cmd) else shutil_which rest cmd

/-- Model of `type_command` (lines 83-106): three `print` calls, all of
which write to stdout. -/
def type_command (dirs : List (String × List String)) (st : Streams) (cmd : String) :
    Streams :=
  if cmd ∈ commandNames then pyPrint st (cmd ++ " is a shell builtin")
  else
    match shutil_which dirs cmd with
    | some p => pyPrint st (cmd ++ " is " ++ p)
    | none => pyPrint st (cmd ++ ": not found")

/-! ## The `cd` builtin -/

/-- The filesystem facts `cd_command` consults: whether
`os.path.exists(p) and os.path.isdir(p)` holds for a path string, and the
working directory resulting from a successful `os.chdir` (given the current
directory and the path). -/
structure Fs where
  existsAndIsDir : String → Bool
  chdir : String → String → String

/-- Model of `cd_command` (lines 120-146).  Result: the new working
directory and the streams.  The error message is emitted with a plain
`print`, so it goes to stdout; only the argument exactly `~` is expanded
(`os.path.expanduser("~")` is the home directory). -/
def cd_command (fs : Fs) (home cwd : String) (st : Streams) (path : String) :
    String × Streams :=
  if fs.existsAndIsDir path then (fs.chdir cwd path, st)
  else if path = "~" then (fs.chdir cwd home, st)
  else (cwd, pyPrint st ("cd: " ++ path ++ ": No such file or directory"))

/-! ## The `exit` builtin -/

/-- A Python value passed as the `code` parameter of `exit_command`:
the default `0` is an `int`, while the dispatcher passes argv words,
which are `str`. -/
inductive PyVal
  | pyInt (n : Int)
  | pyStr (s : String)
deriving DecidableEq

/-- How an invocation of the `exit` builtin ends.  `os._exit` requires an
`int`; handing it a `str` raises `TypeError`, which nothing catches, so the
shell dies with a traceback (`typeErrorCrash`).  `arityError` is the
`TypeError` raised before the body runs when more than one argument is
passed. -/
inductive ExitOutcome
  | exited (historyPersisted : Bool) (code : Int)
  | typeErrorCrash (historyPersisted : Bool)
  | arityError
deriving DecidableEq

/-- Model of `exit_command` (lines 47-66): persist history when a history
path is configured (`_history_path or os.environ.get("HISTFILE")`), then
`os._exit(code)`. -/
def exit_command (histfile : Option String) (code : PyVal) : ExitOutcome :=
  match code with
  | .pyInt n => .exited histfile.isSome n
  | .pyStr _ => .typeErrorCrash histfile.isSome

/-- The `exit` builtin as invoked by the dispatcher
(`commands[command](*args)` with string arguments; no argument means the
default `code=0`). -/
def exit_builtin (histfile : Option String) (args : List String) : ExitOutcome :=
  match args with
  | [] => exit_command histfile (.pyInt 0)
  | [a] => exit_command histfile (.pyStr a)
  | _ => .arityError

/-! ## The pipeline executor (`run_pipeline`, lines 318-437)

Only the parent-visible working directory and the forked children are
modelled.  A builtin stage runs `os.fork()`; the child inherits a copy of
the parent state, executes the builtin, and `os._exit(0)`s, so its
mutations never reach the parent.  External stages run under
`subprocess.Popen`, which cannot change the parent working directory
either.  A `shlex` `ValueError` is uncaught and propagates. -/

/-- Parent state and the final working directories of the forked builtin
children after a pipeline. -/
structure PipeResult where
  parent : String
  children : List String
deriving DecidableEq

/-- The working directory a forked child ends with after executing a
builtin stage: only `cd` with exactly one argument calls `os.chdir`; every
other builtin (or a `cd` arity error, which kills only the child) leaves
the inherited directory alone. -/
def builtinChildCwd (fs : Fs) (home cwd : String) (args : List String) : String :=
  match args with
  | ["cd", p] => (cd_command fs home cwd ⟨"", ""⟩ p).1
  | _ => cwd

/-- The scan at lines 343-348: parse each stage with
`shlex.split(part.strip())` and stop at the first whose head is a builtin. -/
def hasBuiltinScan : List String → Except String Bool
  | [] => .ok false
  | p :: ps =>
    match shlexSplit (pyStrip p) with
    | .error e => .error e
    | .ok [] => hasBuiltinScan ps
    | .ok (cmd :: _) => if cmd ∈ commandNames then .ok true else hasBuiltinScan ps

/-- The stage loop at lines 354-433: empty segments are skipped, builtin
stages fork a child (recorded in `children`), external stages spawn a
subprocess; the parent state is only read, never written. -/
def pipelineStages (fs : Fs) (home : String) :
    List String → PipeResult → Except String PipeResult
  | [], acc => .ok acc
  | part :: rest, acc =>
    match shlexSplit (pyStrip part) with
    | .error e => .error e
    | .ok [] => pipelineStages fs home rest acc
    | .ok (cmd :: args) =>
      if cmd ∈ commandNames then
        pipelineStages fs home rest
          ⟨acc.parent, acc.children ++ [builtinChildCwd fs home acc.parent (cmd :: args)]⟩
      else
        pipelineStages fs home rest acc

/-- Model of `run_pipeline`: split the line on `|`, delegate entirely to
the system shell when no stage is a builtin, otherwise run the stage loop. -/
def run_pipeline (fs : Fs) (home cwd : String) (line : String) :
    Except String PipeResult :=
  let parts := (splitChar '|' line.data).map String.mk
  match hasBuiltinScan parts with
  | .error e => .error e
  | .ok false => .ok ⟨cwd, []⟩
  | .ok true => pipelineStages fs home parts ⟨cwd, []⟩

/-! ## The history buffer (`history_command`, lines 148-238) -/

/-- In-memory readline history plus the `_history_append_index` marker. -/
structure HistState where
  history : List String
  appendIndex : Nat
deriving DecidableEq

/-- Model of `history -a` (lines 192-207), success path: append the entries
with 1-based index in `range(max(1, marker+1), total+1)` to the file, then
advance the marker to the buffer length.  Returns the new state and the
appended entries. -/
def history_a (st : HistState) : HistState × List String :=
  let total := st.history.length
  let start := max 1 (st.appendIndex + 1)
  let appended := if start ≤ total then st.history.drop (start - 1) else []
  ({ st with appendIndex := total }, appended)

/-- The file contents produced by `history -w` (lines 209-221): every entry
followed by a newline. -/
def writeHist : List String → List Char
  | [] => []
  | e :: t => e.data ++ '\n' :: writeHist t

/-- Model of `history -w`: overwrite the file with all entries. -/
def history_w (st : HistState) : List Char :=
  writeHist st.history

/-- Split file contents at newlines, as iterating a Python file and
applying `rstrip("\n")` to each line does. -/
def splitNl : List Char → List (List Char)
  | [] => [[]]
  | c :: cs =>
    if c = '\n' then [] :: splitNl cs
    else
      match splitNl cs with
      | [] => [[c]]
      | l :: ls => (c :: l) :: ls

/-- The entries `history -r` (lines 179-190) reads from file contents:
lines with the trailing newline stripped, empty lines skipped. -/
def parseHistFile (cs : List Char) : List String :=
  ((splitNl cs).filter (fun l => l ≠ [])).map String.mk

/-- Model of `history -r`: read the file and `readline.add_history` each
non-empty line (the append marker is not touched). -/
def history_r (st : HistState) (cs : List Char) : HistState :=
  { st with history := st.history ++ parseHistFile cs }

example : history_a ⟨["a", "b", "c"], 1⟩ = (⟨["a", "b", "c"], 3⟩, ["b", "c"]) := rfl
example : parseHistFile (writeHist ["echo hi", "pwd"]) = ["echo hi", "pwd"] := rfl

/-! ## Tab completion (`complete_command`, lines 439-518) -/

/-- The function attributes stored on `complete_command`:
`_last_matches`, `_last_text`, `_last_tab_text` and `_last_tab_bell`
(the last two default to `None` / `False` via `getattr`). -/
structure CompleterState where
  lastMatches : List String
  lastText : Option String
  lastTabText : Option String
  lastTabBell : Bool
deriving DecidableEq

/-- What one `state == 0` call of the completer produces: the value
returned to readline, the bytes written to stdout, and the new attribute
state. -/
structure CompleteResult where
  ret : Option String
  output : String
  state : CompleterState
deriving DecidableEq

/-- Longest common prefix of two character lists. -/
def lcp2 : List Char → List Char → List Char
  | a :: as, b :: bs => if a = b then a :: lcp2 as bs else []
  | _, _ => []

/-- Model of `os.path.commonprefix`: the longest common prefix of a list of
strings (empty string for the empty list). -/
def lcpAll : List String → String
  | [] => ""
  | s :: rest => String.mk (rest.foldl (fun acc t => lcp2 acc t.data) s.data)

/-- Code-point lexicographic `≤` on character lists, Python string order. -/
def lexLe : List Char → List Char → Bool
  | [], _ => true
  | _ :: _, [] => false
  | a :: as, b :: bs =>
    if a.toNat < b.toNat then true
    else if b.toNat < a.toNat then false
    else lexLe as bs

/-- Python `≤` on strings (code-point lexicographic). -/
def strLe (a b : String) : Bool :=
  lexLe a.data b.data

/-- Insert a string into a sorted list, keeping it sorted. -/
def insertSorted (x : String) : List String → List String
  | [] => [x]
  | y :: ys => if strLe x y then x :: y :: ys else y :: insertSorted x ys

/-- Ascending sort of a list of strings. -/
def sortStrings (l : List String) : List String :=
  l.foldr insertSorted []

/-- Keep the first occurrence of each string. -/
def dedupGo : List String → List String → List String
  | [], _ => []
  | x :: xs, seen =>
    if seen.contains x then dedupGo xs seen else x :: dedupGo xs (x :: seen)

/-- Model of Python `sorted(set(l))`: the distinct elements in ascending
order. -/
def sortedDedup (l : List String) : List String :=
  sortStrings (dedupGo l [])

/-- The candidate set (lines 461-475): builtins whose name starts with the
prefix, plus for each existing PATH directory the executable entries
starting with the prefix, then `sorted(set(...))`.  A PATH directory is a
list of `(name, is executable)` pairs; directories that do not exist are
simply absent (the `FileNotFoundError` branch skips them). -/
def computeOptions (builtins : List String) (dirs : List (List (String × Bool)))
    (text : String) : List String :=
  sortedDedup
    (dirs.foldl
      (fun acc d => acc ++ (d.filter (fun e => strStarts e.1 text && e.2)).map Prod.fst)
      (builtins.filter (fun c => strStarts c text)))

/-- Model of the `state == 0` branch of `complete_command`: store the
matches, then branch on the number of candidates and on the longest common
prefix, ringing the bell on a first stalled TAB and printing the candidate
list (two-space separated, with the prompt and buffer redrawn) on a second
consecutive stalled TAB for the same prefix. -/
def complete_command (builtins : List String) (dirs : List (List (String × Bool)))
    (text buffer : String) (st : CompleterState) : CompleteResult :=
  let options := computeOptions builtins dirs text
  let st1 : CompleterState := { st with lastMatches := options, lastText := some text }
  if options = [] then ⟨none, "", st1⟩
  else if options.length = 1 then ⟨some (options.headD "" ++ " "), "", st1⟩
  else
    let lcp := lcpAll options
    if text.length < lcp.length then
      ⟨some lcp, "", { st1 with lastTabText := none, lastTabBell := false }⟩
    else if st1.lastTabText = some text ∧ st1.lastTabBell = true then
      ⟨none, "\n" ++ String.intercalate "  " options ++ "\n$ " ++ buffer,
        { st1 with lastTabBell := false }⟩
    else
      ⟨none, "\x07", { st1 with lastTabText := some text, lastTabBell := true }⟩

/-- The completer state at shell start: no attributes set. -/
def completerInit : CompleterState :=
  ⟨[], none, none, false⟩

example :
    (complete_command commandNames [] "ec" "ec" completerInit).ret = some "echo " := rfl
example :
    (complete_command commandNames [] "e" "e" completerInit).output = "\x07" := rfl

/-! ## Claim theorems -/

/-- C1: on the input line `echo ">"`, where `>` occurs only inside double
quotes, the redirect regex nevertheless matches at index 6 (the quoted
`>`), so the shell takes the redirection branch instead of passing `>` as
an ordinary argument; the truncated command part `echo "` then makes
`shlex.split` raise an uncaught `ValueError`, killing the shell.  This
refutes the claim that a quoted `>` is treated as a literal word with no
redirection performed. -/
theorem C1_quoted_redirect_eval :
    redirectSearch "echo \">\"" = some ⟨6, "", ">", "\""⟩ ∧
    processLine "echo \">\"" = LineResult.crashed "No closing quotation" :=
  ⟨rfl, rfl⟩

/-- A PATH-resolution function that finds nothing. -/
def whichNone : String → Option String :=
  fun _ => none

/-- A PATH-resolution function that resolves only `echo`. -/
def whichEcho : String → Option String :=
  fun c => if c = "echo" then some "/usr/bin/echo" else none

/-- C2 counterexample: for the unresolvable command `nonesuch` the
dispatcher takes the not-found branch, and the message
`nonesuch: command not found` plus newline is written to stdout while
stderr receives nothing — contradicting the claim that the message goes to
stderr and not stdout. -/
theorem C2_counterexample :
    dispatch whichNone "nonesuch" = Dispatch.notFound ∧
    (commandNotFoundEffect "nonesuch" ⟨"", ""⟩).err = "" ∧
    (commandNotFoundEffect "nonesuch" ⟨"", ""⟩).out = "nonesuch: command not found\n" := by
  refine ⟨by decide, rfl, rfl⟩

/-- C2 (amended): for every command name that is neither resolvable on PATH
nor a registered builtin, the dispatcher takes the not-found branch, writes
exactly `<cmd>: command not found` followed by a newline to stdout, leaves
stderr untouched, and the branch cannot terminate the REPL loop. -/
theorem C2_not_found_to_stdout (which : String → Option String) (cmd : String)
    (st : Streams) (hw : which cmd = none) (hb : cmd ∉ commandNames) :
    dispatch which cmd = Dispatch.notFound ∧
    (commandNotFoundEffect cmd st).out = st.out ++ (cmd ++ ": command not found") ++ "\n" ∧
    (commandNotFoundEffect cmd st).err = st.err ∧
    canTerminateLoop (dispatch which cmd) = false := by
  have hd : dispatch which cmd = Dispatch.notFound := by
    unfold dispatch
    rw [hw]
    simp [hb]
  refine ⟨hd, rfl, rfl, by rw [hd]; rfl⟩

/-- Witness for C2: the amended statement at `nonesuch` with no PATH hits. -/
theorem C2_not_found_to_stdout_witness :
    dispatch whichNone "nonesuch" = Dispatch.notFound ∧
    (commandNotFoundEffect "nonesuch" ⟨"", ""⟩).out =
      "" ++ ("nonesuch" ++ ": command not found") ++ "\n" ∧
    (commandNotFoundEffect "nonesuch" ⟨"", ""⟩).err = "" ∧
    canTerminateLoop (dispatch whichNone "nonesuch") = false :=
  C2_not_found_to_stdout whichNone "nonesuch" ⟨"", ""⟩ rfl (by decide)

/-- C3: when a command name resolves on PATH the dispatcher always takes
the external-executable branch, even for registered builtin names; the
builtin branch is taken only when PATH resolution fails for a registered
name. -/
theorem C3_path_resolution_wins (which : String → Option String) (cmd : String) :
    ((which cmd).isSome = true → dispatch which cmd = Dispatch.runExecutable) ∧
    (which cmd = none → cmd ∈ commandNames → dispatch which cmd = Dispatch.builtinCall) := by
  constructor
  · intro h
    unfold dispatch
    simp [h]
  · intro h hm
    unfold dispatch
    rw [h]
    simp [hm]

/-- Witness for C3: `echo` is both a builtin and (here) on PATH, and the
external branch wins; with an empty PATH the builtin branch is taken. -/
theorem C3_path_resolution_wins_witness :
    dispatch whichEcho "echo" = Dispatch.runExecutable ∧
    dispatch whichNone "echo" = Dispatch.builtinCall :=
  ⟨(C3_path_resolution_wins whichEcho "echo").1 (by decide),
   (C3_path_resolution_wins whichNone "echo").2 rfl (by decide)⟩

/-- C6: evaluation of the `exit` builtin as the dispatcher invokes it.
Bare `exit` exits with code 0 (persisting history when a path is
configured), but any argument — integer-looking or not — arrives as a
Python `str`, so `os._exit` raises `TypeError` and the shell crashes with
a traceback instead of exiting with the requested code (or with code 2 and
a message for a non-integer). -/
theorem C6_exit_dispatch_eval :
    exit_builtin (some "/home/user/.hist") [] = ExitOutcome.exited true 0 ∧
    exit_builtin none [] = ExitOutcome.exited false 0 ∧
    exit_builtin (some "/home/user/.hist") ["5"] = ExitOutcome.typeErrorCrash true ∧
    exit_builtin none ["abc"] = ExitOutcome.typeErrorCrash false :=
  ⟨rfl, rfl, rfl, rfl⟩

/-- A filesystem in which no literal path names an existing directory and
`os.chdir` lands exactly on the given path. -/
def fsNone : Fs :=
  ⟨fun _ => false, fun _ p => p⟩

/-- The parent component of the stage loop never changes: builtin stages
fork and external stages spawn, and the parent only reads its state. -/
theorem pipelineStages_parent (fs : Fs) (home : String) :
    ∀ (parts : List String) (acc r : PipeResult),
      pipelineStages fs home parts acc = .ok r → r.parent = acc.parent := by
  intro parts
  induction parts with
  | nil =>
    intro acc r h
    simp only [pipelineStages] at h
    cases h
    rfl
  | cons p ps ih =>
    intro acc r h
    simp only [pipelineStages] at h
    split at h
    · cases h
    · exact ih _ _ h
    · split at h
      · have hp := ih _ _ h
        simpa using hp
      · exact ih _ _ h

/-- C4: for every input line splitting into at least two pipeline stages,
one of which parses to a `cd` command, if `run_pipeline` completes then the
parent working directory it reports is the one it started with — builtin
stages run in forked children, so their `os.chdir` is invisible to the
parent. -/
theorem C4_pipeline_cd_keeps_parent_cwd (fs : Fs) (home cwd line : String)
    (r : PipeResult)
    (_hlen : 2 ≤ ((splitChar '|' line.data).map String.mk).length)
    (_hcd : ∃ part ∈ (splitChar '|' line.data).map String.mk,
      ∃ rest, shlexSplit (pyStrip part) = .ok ("cd" :: rest))
    (hrun : run_pipeline fs home cwd line = .ok r) :
    r.parent = cwd := by
  simp only [run_pipeline] at hrun
  cases hb : hasBuiltinScan ((splitChar '|' line.data).map String.mk) with
  | error e => rw [hb] at hrun; cases hrun
  | ok b =>
    rw [hb] at hrun
    cases b
    · cases hrun
      rfl
    · exact pipelineStages_parent fs home _ _ r hrun

/-- Witness for C4: the two-stage pipeline `cd /nope | cat` completes with
the parent directory still `/tmp` (and the forked child also stayed at
`/tmp`, because the target does not exist). -/
theorem C4_pipeline_cd_keeps_parent_cwd_witness :
    run_pipeline fsNone "/home/user" "/tmp" "cd /nope | cat" = .ok ⟨"/tmp", ["/tmp"]⟩ ∧
    (⟨"/tmp", ["/tmp"]⟩ : PipeResult).parent = "/tmp" :=
  ⟨rfl,
   C4_pipeline_cd_keeps_parent_cwd fsNone "/home/user" "/tmp" "cd /nope | cat"
     ⟨"/tmp", ["/tmp"]⟩ (by decide)
     ⟨"cd /nope ", by decide, ["/nope"], rfl⟩ rfl⟩

/-- C5 counterexample: for the argument `~/docs` (leading `~/`, and no
literal directory of that name), `cd` does not expand the tilde: it leaves
the working directory unchanged and prints
`cd: ~/docs: No such file or directory` to stdout, with stderr empty —
contradicting both the claimed `~/` expansion and the claimed stderr
message. -/
theorem C5_counterexample :
    cd_command fsNone "/home/user" "/tmp" ⟨"", ""⟩ "~/docs" =
      ("/tmp", ⟨"cd: ~/docs: No such file or directory\n", ""⟩) := by
  decide

/-- C5 (amended): `cd` changes directory when the literal argument is an
existing directory; otherwise only the argument exactly `~` is expanded to
the home directory; any other failing argument leaves the working
directory unchanged and prints `cd: <path>: No such file or directory` to
stdout, never touching stderr (and no exit status is recorded). -/
theorem C5_cd_behaviour (fs : Fs) (home cwd : String) (st : Streams) (path : String) :
    (fs.existsAndIsDir path = true →
      cd_command fs home cwd st path = (fs.chdir cwd path, st)) ∧
    (fs.existsAndIsDir path = false → path = "~" →
      cd_command fs home cwd st path = (fs.chdir cwd home, st)) ∧
    (fs.existsAndIsDir path = false → path ≠ "~" →
      cd_command fs home cwd st path =
        (cwd, pyPrint st ("cd: " ++ path ++ ": No such file or directory")) ∧
      (cd_command fs home cwd st path).2.err = st.err) := by
  refine ⟨?_, ?_, ?_⟩
  · intro h1
    simp [cd_command, h1]
  · intro h1 h2
    subst h2
    simp [cd_command, h1]
  · intro h1 h2
    constructor
    · simp [cd_command, h1, h2]
    · simp [cd_command, h1, h2, pyPrint]

/-- Witness for C5: the argument exactly `~` is expanded to the home
directory, and a failing plain path prints to stdout only. -/
theorem C5_cd_behaviour_witness :
    cd_command fsNone "/home/user" "/tmp" ⟨"", ""⟩ "~" = ("/home/user", ⟨"", ""⟩) ∧
    cd_command fsNone "/home/user" "/tmp" ⟨"", ""⟩ "/nope" =
      ("/tmp", pyPrint ⟨"", ""⟩ ("cd: " ++ "/nope" ++ ": No such file or directory")) :=
  ⟨(C5_cd_behaviour fsNone "/home/user" "/tmp" ⟨"", ""⟩ "~").2.1 rfl rfl,
   ((C5_cd_behaviour fsNone "/home/user" "/tmp" ⟨"", ""⟩ "/nope").2.2 rfl
     (by decide)).1⟩

/-- C7 counterexample: for an argument that is neither a builtin nor on
PATH, `type` prints `nonesuch: not found` (with newline) to stdout and
writes nothing to stderr — contradicting the claimed stderr message and
nonzero exit status (the builtin returns `None`, no status exists). -/
theorem C7_counterexample :
    type_command [] ⟨"", ""⟩ "nonesuch" = ⟨"nonesuch: not found\n", ""⟩ := by
  decide

/-- C7 (amended): for the single argument of the `type` builtin: a
registered builtin name prints `<name> is a shell builtin`; otherwise a
name resolving on PATH prints `<name> is <path>` with the first PATH match
(as computed by `shutil_which`); otherwise `<name>: not found` is printed —
all three on stdout, with stderr always left untouched and no exit status
recorded. -/
theorem C7_type_behaviour (dirs : List (String × List String)) (st : Streams)
    (cmd : String) :
    (cmd ∈ commandNames → type_command dirs st cmd = pyPrint st (cmd ++ " is a shell builtin")) ∧
    (cmd ∉ commandNames → ∀ p, shutil_which dirs cmd = some p →
      type_command dirs st cmd = pyPrint st (cmd ++ " is " ++ p)) ∧
    (cmd ∉ commandNames → shutil_which dirs cmd = none →
      type_command dirs st cmd = pyPrint st (cmd ++ ": not found")) ∧
    (type_command dirs st cmd).err = st.err := by
  refine ⟨?_, ?_, ?_, ?_⟩
  · intro h
    simp [type_command, h]
  · intro h p hp
    simp [type_command, h, hp]
  · intro h hp
    simp [type_command, h, hp]
  · by_cases h : cmd ∈ commandNames
    · simp [type_command, h, pyPrint]
    · cases hp : shutil_which dirs cmd <;> simp [type_command, h, hp, pyPrint]

/-- Witness for C7: `type` is a builtin; `ls` resolves to the first PATH
match `/bin/ls`; stderr stays empty. -/
theorem C7_type_behaviour_witness :
    type_command [("/bin", ["ls"])] ⟨"", ""⟩ "ls" =
      pyPrint ⟨"", ""⟩ ("ls" ++ " is " ++ "/bin/ls") ∧
    type_command [] ⟨"", ""⟩ "type" = pyPrint ⟨"", ""⟩ ("type" ++ " is a shell builtin") :=
  ⟨(C7_type_behaviour [("/bin", ["ls"])] ⟨"", ""⟩ "ls").2.1 (by decide) "/bin/ls" rfl,
   (C7_type_behaviour [] ⟨"", ""⟩ "type").1 (by decide)⟩

/-- C8: after any `history -a` call the append marker equals the buffer
length, so a second consecutive `history -a` with no intervening input
appends the empty list of entries. -/
theorem C8_history_append_idempotent (st : HistState) :
    (history_a st).1.appendIndex = st.history.length ∧
    (history_a (history_a st).1).2 = [] := by
  constructor
  · rfl
  · have h : ¬ (max 1 (st.history.length + 1) ≤ st.history.length) := by
      omega
    simp [history_a, h]

/-- `splitNl` splits off a newline-free chunk before a `'\n'`. -/
theorem splitNl_append (xs rest : List Char) (h : '\n' ∉ xs) :
    splitNl (xs ++ '\n' :: rest) = xs :: splitNl rest := by
  induction xs with
  | nil => simp [splitNl]
  | cons c cs ih =>
    have hc : c ≠ '\n' := by
      intro e
      exact h (e ▸ List.mem_cons_self c cs)
    have h2 : '\n' ∉ cs := fun m => h (List.mem_cons_of_mem c m)
    simp [List.cons_append, splitNl, hc, ih h2]

/-- Parsing back a written history file recovers the entries, provided
every entry is a non-empty newline-free line. -/
theorem parseHistFile_writeHist (H : List String)
    (h : ∀ e ∈ H, e ≠ "" ∧ '\n' ∉ e.data) :
    parseHistFile (writeHist H) = H := by
  induction H with
  | nil => rfl
  | cons e t ih =>
    obtain ⟨he, hn⟩ := h e (List.mem_cons_self e t)
    have ht : ∀ x ∈ t, x ≠ "" ∧ '\n' ∉ x.data :=
      fun x hx => h x (List.mem_cons_of_mem e hx)
    have hd : e.data ≠ [] := by
      intro hh
      apply he
      cases e with
      | mk d =>
        cases hh
        rfl
    have hstep : parseHistFile (e.data ++ '\n' :: writeHist t) =
        String.mk e.data :: parseHistFile (writeHist t) := by
      unfold parseHistFile
      rw [splitNl_append e.data (writeHist t) hn]
      simp [hd]
    have hmk : String.mk e.data = e := by
      cases e
      rfl
    show parseHistFile (e.data ++ '\n' :: writeHist t) = e :: t
    rw [hstep, ih ht, hmk]

/-- C9: writing the whole history buffer with `history -w` and reading the
file back with `history -r` appends exactly the same entries in the same
order, whenever every buffered entry is a non-empty line without embedded
newlines. -/
theorem C9_history_roundtrip (st : HistState)
    (h : ∀ e ∈ st.history, e ≠ "" ∧ '\n' ∉ e.data) :
    (history_r st (history_w st)).history = st.history ++ st.history := by
  unfold history_r history_w
  rw [parseHistFile_writeHist st.history h]

/-- Witness for C9: a two-entry buffer round-trips, doubling the buffer. -/
theorem C9_history_roundtrip_witness :
    (history_r ⟨["echo hi", "pwd"], 0⟩ (history_w ⟨["echo hi", "pwd"], 0⟩)).history =
      ["echo hi", "pwd", "echo hi", "pwd"] :=
  C9_history_roundtrip ⟨["echo hi", "pwd"], 0⟩ (by decide)

/-- C10: for a prefix whose candidate set has at least two elements and
whose longest common prefix equals the prefix itself, a first TAB (with no
pending stalled TAB for this prefix) returns nothing to readline — leaving
the buffer unchanged — and writes only the terminal bell, recording the
stalled state; the immediately following second TAB for the same prefix
returns nothing and prints the candidate list separated by two spaces,
followed by the redrawn prompt `$ ` with the buffer intact. -/
theorem C10_double_tab (builtins : List String) (dirs : List (List (String × Bool)))
    (text buffer : String) (st : CompleterState)
    (h2 : 2 ≤ (computeOptions builtins dirs text).length)
    (hlcp : lcpAll (computeOptions builtins dirs text) = text)
    (hfresh : ¬ (st.lastTabText = some text ∧ st.lastTabBell = true)) :
    (complete_command builtins dirs text buffer st).ret = none ∧
    (complete_command builtins dirs text buffer st).output = "\x07" ∧
    (complete_command builtins dirs text buffer st).state.lastTabText = some text ∧
    (complete_command builtins dirs text buffer st).state.lastTabBell = true ∧
    (complete_command builtins dirs text buffer
      ((complete_command builtins dirs text buffer st).state)).ret = none ∧
    (complete_command builtins dirs text buffer
      ((complete_command builtins dirs text buffer st).state)).output =
      "\n" ++ String.intercalate "  " (computeOptions builtins dirs text) ++
        "\n$ " ++ buffer := by
  have hne : ¬ (computeOptions builtins dirs text = []) := by
    intro hh
    rw [hh] at h2
    simp at h2
  have hlen1 : ¬ ((computeOptions builtins dirs text).length = 1) := by
    omega
  have hlt : ¬ (text.length < (lcpAll (computeOptions builtins dirs text)).length) := by
    rw [hlcp]
    omega
  have h1 : complete_command builtins dirs text buffer st =
      ⟨none, "\x07",
        { st with lastMatches := computeOptions builtins dirs text,
                  lastText := some text,
                  lastTabText := some text, lastTabBell := true }⟩ := by
    simp only [complete_command]
    rw [if_neg hne, if_neg hlen1, if_neg hlt, if_neg (by simpa using hfresh)]
  have hsecond : complete_command builtins dirs text buffer
      ({ st with lastMatches := computeOptions builtins dirs text,
                 lastText := some text,
                 lastTabText := some text, lastTabBell := true } : CompleterState) =
      ⟨none,
        "\n" ++ String.intercalate "  " (computeOptions builtins dirs text) ++
          "\n$ " ++ buffer,
        { st with lastMatches := computeOptions builtins dirs text,
                  lastText := some text,
                  lastTabText := some text, lastTabBell := false }⟩ := by
    simp only [complete_command]
    rw [if_neg hne, if_neg hlen1, if_neg hlt, if_pos (by simp)]
  rw [h1]
  rw [hsecond]
  exact ⟨rfl, rfl, rfl, rfl, rfl, rfl⟩

/-- Witness for C10: prefix `e` with candidates `echo` and `exit` from the
builtin registry; the first TAB rings the bell and the second prints
`echo  exit` and redraws the prompt. -/
theorem C10_double_tab_witness :
    (complete_command commandNames [] "e" "e" completerInit).output = "\x07" ∧
    (complete_command commandNames [] "e" "e"
      ((complete_command commandNames [] "e" "e" completerInit).state)).output =
      "\n" ++ String.intercalate "  " (computeOptions commandNames [] "e") ++
        "\n$ " ++ "e" := by
  have h := C10_double_tab commandNames [] "e" "e" completerInit
    (by decide) (by decide) (by decide)
  exact ⟨h.2.1, h.2.2.2.2.2⟩
